import Mathlib

/-!
Verification development for the smart-locker system: ESP32 firmware
(shift-register I/O driver and per-compartment motion state machine,
from locker_firmware_fixed.ino) and coordinator service
(lib/db/lockerService.ts and the lockers API routes).

Machine integers are modelled as Nat with explicit reduction modulo
2^8 (shift-register bytes) and 2^32 (millis() clock arithmetic).
External inputs (sampled sensor pins, the wall clock, network
round-trip results) enter each function as explicit parameters.
-/

namespace Locker

/-! ## Firmware constants (locker_firmware_fixed.ino) -/

/-- 74HC595 output bit positions. -/
def OUT_DIR : Nat := 0
def OUT_LED : Nat := 1
def OUT_UVC : Nat := 2
def OUT_HEAT : Nat := 3
def OUT_STEP : Nat := 4
def OUT_SOLENOID : Nat := 5

/-- 74HC165 input bit positions. -/
def IN_HALL_CLOSED : Nat := 0
def IN_HALL_OPEN : Nat := 1
def IN_IR_BEAM : Nat := 2
def IN_OCCUPANCY : Nat := 4
def IN_TEMP : Nat := 5
def IN_SAFETY : Nat := 6
def IN_TMC_DIAG : Nat := 7

def MOTOR_TIMEOUT_MS : Nat := 10000

/-- Compile-time safety bypass flag, `#define TEST_MODE true` in the source. -/
def TEST_MODE : Bool := true

/-- 2^32, the wrap modulus of the uint32 `millis()` clock. -/
def U32 : Nat := 4294967296

/-- uint32 subtraction `now - start` as performed by `millis() - _opStart`. -/
def elapsed32 (now start : Nat) : Nat := (now + U32 - start) % U32

/-! ## ShiftRegister

State of one compartment's shift-register pair.  `outputState` and
`inputState` are the driver's cached bytes (`_outputState`,
`_inputState`); `chipOutput` is the word physically latched on the
74HC595.  The read clock pulses share the output chip's clock line and
may disturb the physical output word (modelled by the `disturb`
parameter); the driver re-asserts `_outputState` after every read. -/

structure ShiftRegister where
  outputState : Nat
  inputState : Nat
  chipOutput : Nat
deriving Repr, DecidableEq

/-- `ShiftRegister::writeOutputs(data)`: caches the byte and latches it
onto the output chip. -/
def ShiftRegister.writeOutputs (sr : ShiftRegister) (data : Nat) : ShiftRegister :=
  { sr with outputState := data % 256, chipOutput := data % 256 }

/-- `ShiftRegister::readInputs()`: samples the input byte (`pins`), the
shared-clock pulses possibly disturbing the physical output word
(`disturb`), then re-asserts the last written output word. -/
def ShiftRegister.readInputs (sr : ShiftRegister) (pins disturb : Nat) : ShiftRegister :=
  let sr1 : ShiftRegister :=
    { sr with inputState := pins % 256, chipOutput := disturb % 256 }
  sr1.writeOutputs sr1.outputState

/-- `ShiftRegister::setOutput(bit, state)`: read-modify-write of one
output bit (`~(1 << bit)` on a uint8 is `255 ^^^ (1 <<< bit)`). -/
def ShiftRegister.setOutput (sr : ShiftRegister) (bit : Nat) (state : Bool) : ShiftRegister :=
  if bit > 7 then sr
  else
    let next := if state then sr.outputState ||| (1 <<< bit)
                else sr.outputState &&& (255 ^^^ (1 <<< bit))
    sr.writeOutputs next

/-! ## LockerControl -/

inductive LockerState where
  | IDLE | UNLOCKING | OPEN | CLOSING | LOCKED | FAULT | SANITIZING
deriving Repr, DecidableEq

/-- The seven sensor booleans decoded from the input byte. -/
structure SensorState where
  doorClosed : Bool
  doorOpen : Bool
  irBeamClear : Bool
  occupied : Bool
  tempOk : Bool
  safetyOk : Bool
  motorFault : Bool
deriving Repr, DecidableEq

/-- State of one `LockerControl` instance together with its
shift register. -/
structure LockerControl where
  sr : ShiftRegister
  state : LockerState
  opStart : Nat
  sanitizeEnd : Nat
  lastError : Option String
deriving Repr, DecidableEq

/-- `LockerControl::getSensors()`: decode `_inputState` (hall sensors
and occupancy are active-low). -/
def LockerControl.getSensors (lc : LockerControl) : SensorState :=
  let i := lc.sr.inputState
  { doorClosed := !(i.testBit IN_HALL_CLOSED)
    doorOpen := !(i.testBit IN_HALL_OPEN)
    irBeamClear := i.testBit IN_IR_BEAM
    occupied := !(i.testBit IN_OCCUPANCY)
    tempOk := i.testBit IN_TEMP
    safetyOk := i.testBit IN_SAFETY
    motorFault := i.testBit IN_TMC_DIAG }

/-- `LockerControl::isBusy()`. -/
def LockerControl.isBusy (lc : LockerControl) : Bool :=
  lc.state = LockerState.UNLOCKING ∨ lc.state = LockerState.CLOSING ∨
    lc.state = LockerState.SANITIZING

/-- `LockerControl::emergencyStop()`: zero all eight output bits. -/
def LockerControl.emergencyStop (lc : LockerControl) : LockerControl :=
  { lc with sr := lc.sr.writeOutputs 0 }

/-- `LockerControl::checkSafety()`: with `testMode` (the compiled
`TEST_MODE` value) true the body is `return true` — the sensor checks
are compiled out. -/
def LockerControl.checkSafety (testMode : Bool) (lc : LockerControl) :
    Bool × LockerControl :=
  if testMode then (true, lc)
  else
    let s := lc.getSensors
    if !s.safetyOk then (false, { lc with lastError := some "Safety tripped" })
    else if s.motorFault then (false, { lc with lastError := some "Motor fault" })
    else (true, lc)

/-- `LockerControl::unlock()`; `now` is the `millis()` read stored into
`_opStart`. -/
def LockerControl.unlock (testMode : Bool) (now : Nat) (lc : LockerControl) :
    Bool × LockerControl :=
  if lc.isBusy then (false, { lc with lastError := some "Busy" })
  else
    match lc.checkSafety testMode with
    | (false, lc1) => (false, lc1)
    | (true, lc1) =>
        let sr1 := ((((lc1.sr.setOutput OUT_SOLENOID true).setOutput OUT_SOLENOID
          false).setOutput OUT_DIR true).setOutput OUT_LED true)
        (true, { lc1 with sr := sr1, state := LockerState.UNLOCKING,
                          opStart := now % U32 })

/-- `LockerControl::lock()`. -/
def LockerControl.lock (testMode : Bool) (now : Nat) (lc : LockerControl) :
    Bool × LockerControl :=
  let s := lc.getSensors
  if !s.irBeamClear then (false, { lc with lastError := some "IR blocked" })
  else
    match lc.checkSafety testMode with
    | (false, lc1) => (false, lc1)
    | (true, lc1) =>
        (true, { lc1 with sr := lc1.sr.setOutput OUT_DIR false,
                          state := LockerState.CLOSING, opStart := now % U32 })

/-- `LockerControl::startSanitize(ms)`. -/
def LockerControl.startSanitize (now ms : Nat) (lc : LockerControl) :
    Bool × LockerControl :=
  let s := lc.getSensors
  if !s.doorClosed then (false, { lc with lastError := some "Door open" })
  else if lc.isBusy then (false, { lc with lastError := some "Busy" })
  else
    (true, { lc with sr := lc.sr.setOutput OUT_UVC true,
                     sanitizeEnd := (now + ms) % U32,
                     state := LockerState.SANITIZING })

/-- `LockerControl::update()`: refresh sensors (`pins`, `disturb` feed
the shift-register read), then the motor-fault emergency check, then
the per-state transition rules.  `now` is the `millis()` read of this
cycle. -/
def LockerControl.update (now pins disturb : Nat) (lc : LockerControl) :
    LockerControl :=
  let lc := { lc with sr := lc.sr.readInputs pins disturb }
  let s := lc.getSensors
  if s.motorFault ∧ lc.state ≠ LockerState.FAULT then
    { lc.emergencyStop with lastError := some "Motor fault",
                            state := LockerState.FAULT }
  else
    match lc.state with
    | LockerState.UNLOCKING =>
        if s.doorOpen then
          { lc with sr := lc.sr.setOutput OUT_STEP false,
                    state := LockerState.OPEN }
        else if elapsed32 now lc.opStart > MOTOR_TIMEOUT_MS then
          { lc.emergencyStop with lastError := some "Open timeout",
                                  state := LockerState.FAULT }
        else lc
    | LockerState.CLOSING =>
        if !s.irBeamClear then
          { lc with lastError := some "Obstruction",
                    sr := lc.sr.setOutput OUT_DIR true,
                    state := LockerState.UNLOCKING, opStart := now % U32 }
        else if s.doorClosed then
          { lc with sr := (lc.sr.setOutput OUT_STEP false).setOutput OUT_LED false,
                    state := LockerState.LOCKED }
        else if elapsed32 now lc.opStart > MOTOR_TIMEOUT_MS then
          { lc.emergencyStop with lastError := some "Close timeout",
                                  state := LockerState.FAULT }
        else lc
    | LockerState.SANITIZING =>
        if now ≥ lc.sanitizeEnd then
          { lc with sr := lc.sr.setOutput OUT_UVC false,
                    state := LockerState.LOCKED }
        else lc
    | LockerState.OPEN =>
        if s.doorClosed then
          { lc with sr := lc.sr.setOutput OUT_LED false,
                    state := LockerState.LOCKED }
        else lc
    | _ => lc

/-! ## Coordinator: column registry (lib/db/lockerService.ts)

Timestamps are modelled as milliseconds-since-epoch naturals (the TS
code stores ISO strings and re-parses them with `Date`).  JS
`Date.now() - lastSeen` can be negative when `lastSeen` is in the
future; Nat subtraction truncates to 0 there, which yields the same
verdicts for the `< 60000` and `> 60000` comparisons below. -/

structure RegColumn where
  id : String
  ip : String
  port : Nat
  lockerCount : Nat
  firmwareVersion : String
  lastSeen : Nat
  isOnline : Bool
  sensors : List SensorState
deriving Repr, DecidableEq

/-- `columnRegistry.get(columnId)`. -/
def registryGet (reg : List RegColumn) (columnId : String) : Option RegColumn :=
  reg.find? (fun c => c.id == columnId)

/-- `isColumnOnline`: seen within the last 60 seconds. -/
def isColumnOnline (reg : List RegColumn) (now : Nat) (columnId : String) : Bool :=
  match registryGet reg columnId with
  | none => false
  | some col => now - col.lastSeen < 60000

/-- `checkColumnHealth`: the periodic sweep flips `isOnline` on stale
columns; it never removes a registry entry. -/
def checkColumnHealth (reg : List RegColumn) (now : Nat) : List RegColumn :=
  reg.map (fun col =>
    if now - col.lastSeen > 60000 && col.isOnline then { col with isOnline := false }
    else col)

/-- Outcome of `sendToColumn`.  Only the `commFailed` and `responded`
constructors correspond to an attempted network round-trip (`fetch`);
`notFound` and `offline` are returned before any network I/O. -/
inductive SendOutcome where
  | notFound
  | offline
  | commFailed
  | responded (ok : Bool)
deriving Repr, DecidableEq

/-- `sendToColumn`: registry lookup, then online gate, then the fetch.
The network environment is the `net` parameter: `none` means the fetch
threw (timeout/connection error), `some b` a response whose body had
`success = b`. -/
def sendToColumn (reg : List RegColumn) (now : Nat) (net : Option Bool)
    (columnId : String) : SendOutcome :=
  match registryGet reg columnId with
  | none => SendOutcome.notFound
  | some _ =>
      if !(isColumnOnline reg now columnId) then SendOutcome.offline
      else
        match net with
        | none => SendOutcome.commFailed
        | some b => SendOutcome.responded b

def SendOutcome.success : SendOutcome → Bool
  | SendOutcome.responded b => b
  | _ => false

def SendOutcome.errMsg : SendOutcome → Option String
  | SendOutcome.notFound => some "Column not found"
  | SendOutcome.offline => some "Column offline"
  | SendOutcome.commFailed => some "Communication failed"
  | SendOutcome.responded _ => none

/-- `parseInt(s, 10)` on a nonnegative decimal string: longest digit
prefix, NaN (`none`) when there is none. -/
def parseIntLoose (s : String) : Option Nat :=
  let ds := s.data.takeWhile (fun c => c.isDigit)
  if ds.isEmpty then none
  else some (ds.foldl (fun n c => n * 10 + (c.toNat - 48)) 0)

/-- `unlockLocker(compartmentId)`: splits the id on `-`, parses the
locker index, and relays `/unlock` to the column named by the first
segment.  Returns the JS `{success, error?}` pair. -/
def unlockLocker (reg : List RegColumn) (now : Nat) (net : Option Bool)
    (compartmentId : String) : Bool × Option String :=
  let parts := (compartmentId.data.splitOn '-').map String.mk
  let columnId := parts.headD ""
  match parseIntLoose (parts.getD 1 "") with
  | none => (false, some "Invalid compartment ID")
  | some _ =>
      let o := sendToColumn reg now net columnId
      (o.success, o.errMsg)

/-! ## Coordinator: database model -/

structure OrderRec where
  id : String
  orderNumber : String
  compartmentId : Option String
  pickupCode : Option String
  pickedUpAt : Option String
  fulfillmentType : String
deriving Repr, DecidableEq

structure CompartmentRec where
  id : String
  columnId : String
  lockerIndex : Nat
  size : String
  status : String
  currentOrderId : Option String
  lastStatusChange : String
deriving Repr, DecidableEq

structure EventRec where
  id : String
  compartmentId : String
  event : String
  payload : String
  timestamp : String
deriving Repr, DecidableEq

/-- The three locker tables (`Order` restricted to its locker columns). -/
structure Db where
  orders : List OrderRec
  compartments : List CompartmentRec
  events : List EventRec
deriving Repr, DecidableEq

/-- `SELECT ... FROM Compartment WHERE id = ?` (id is the primary key). -/
def Db.findCompartment (db : Db) (cid : String) : Option CompartmentRec :=
  db.compartments.find? (fun c => c.id == cid)

/-- `SELECT ... FROM "Order" WHERE id = ?`. -/
def Db.findOrder (db : Db) (oid : String) : Option OrderRec :=
  db.orders.find? (fun o => o.id == oid)

/-- `UPDATE Compartment SET ... WHERE id = ?`. -/
def Db.updateCompartment (db : Db) (cid : String)
    (f : CompartmentRec → CompartmentRec) : Db :=
  let cs := db.compartments.map (fun c => if c.id == cid then f c else c)
  { db with compartments := cs }

/-- `UPDATE "Order" SET ... WHERE id = ?`. -/
def Db.updateOrder (db : Db) (oid : String) (f : OrderRec → OrderRec) : Db :=
  { db with orders := db.orders.map (fun o => if o.id == oid then f o else o) }

/-- `handleLockerEvent`: append the audit record, then dispatch on the
event kind.  `now` is the coordinator clock (ISO string), `ts` the
event timestamp written to the log, `eid`/`payload` the generated row
id and serialized payload. -/
def handleLockerEvent (db : Db) (columnId : String) (lockerIndex : Nat)
    (event : String) (now ts eid payload : String) : Db :=
  let compartmentId := columnId ++ "-" ++ toString lockerIndex
  let db1 : Db := { db with events := db.events ++
    [{ id := eid, compartmentId := compartmentId, event := event,
       payload := payload, timestamp := ts }] }
  if event == "DOOR_OPENED" then
    db1.updateCompartment compartmentId
      (fun c => { c with status := "open", lastStatusChange := now })
  else if event == "DOOR_CLOSED" then
    let cur := (db1.findCompartment compartmentId).bind (fun c => c.currentOrderId)
    let newStatus := if cur.isSome then "occupied" else "available"
    db1.updateCompartment compartmentId
      (fun c => { c with status := newStatus, lastStatusChange := now })
  else if event == "ITEM_REMOVED" then
    match (db1.findCompartment compartmentId).bind (fun c => c.currentOrderId) with
    | some oid =>
        let db2 := db1.updateOrder oid (fun o => { o with pickedUpAt := some now })
        db2.updateCompartment compartmentId
          (fun c => { c with status := "available", currentOrderId := none,
                             lastStatusChange := now })
    | none => db1
  else if event == "MOTOR_FAULT" || event == "SAFETY_TRIPPED" then
    db1.updateCompartment compartmentId
      (fun c => { c with status := "fault", lastStatusChange := now })
  else if event == "MOTOR_FAULT_CLEARED" || event == "SAFETY_CLEARED" then
    db1.updateCompartment compartmentId
      (fun c => { c with status := "available", lastStatusChange := now })
  else db1

inductive AssignResult where
  | ok (pickupCode : String)
  | err (msg : String)
deriving Repr, DecidableEq

/-- `assignOrderToLocker`: availability check, then bind the order and
reserve the compartment.  The freshly generated random pickup code is
the `pickupCode` parameter; the display update is network-only. -/
def assignOrderToLocker (db : Db) (orderId compartmentId : String)
    (pickupCode : String) (now : String) : AssignResult × Db :=
  match db.findCompartment compartmentId with
  | none => (AssignResult.err "Compartment not found", db)
  | some c =>
      if c.status == "available" then
        let db1 := db.updateOrder orderId (fun o =>
          { o with compartmentId := some compartmentId,
                   pickupCode := some pickupCode,
                   fulfillmentType := "locker" })
        let db2 := db1.updateCompartment compartmentId (fun x =>
          { x with status := "reserved", currentOrderId := some orderId,
                   lastStatusChange := now })
        (AssignResult.ok pickupCode, db2)
      else (AssignResult.err ("Compartment is " ++ c.status), db)

/-- `markOrderLoaded`: flips the order's compartment to `occupied`;
display/LED calls are network-only. -/
def markOrderLoaded (db : Db) (orderId : String) (now : String) :
    (Bool × Option String) × Db :=
  match db.findOrder orderId with
  | none => ((false, some "Order not assigned to locker"), db)
  | some o =>
      match o.compartmentId with
      | none => ((false, some "Order not assigned to locker"), db)
      | some cid =>
          ((true, none),
            db.updateCompartment cid (fun c =>
              { c with status := "occupied", lastStatusChange := now }))

/-! ## Coordinator: pickup code validation -/

/-- The row found by the `validateAndUnlock` query: pickup code
matches, order not yet picked up, and its joined compartment is
`occupied`. -/
def Db.lookupPickup (db : Db) (code : String) : Option OrderRec :=
  db.orders.find? (fun o =>
    o.pickupCode == some code && o.pickedUpAt == none &&
      (match o.compartmentId with
       | some cid =>
           (match db.findCompartment cid with
            | some c => c.status == "occupied"
            | none => false)
       | none => false))

/-- `order.id.slice(-4).toUpperCase()`. -/
def sliceLast4Upper (s : String) : String :=
  String.mk ((s.data.drop (s.data.length - 4)).map Char.toUpper)

/-- `order.orderNumber || order.id.slice(-4).toUpperCase()` (empty
string is falsy in JS). -/
def displayOrderNumber (o : OrderRec) : String :=
  if o.orderNumber == "" then sliceLast4Upper o.id else o.orderNumber

inductive ValidateResult where
  | ok (compartmentId orderNumber : String)
  | err (msg : String)
deriving Repr, DecidableEq

/-- `validateAndUnlock(pickupCode)`: code lookup, then the unlock
relay.  The display update before the relay is network-only.  The
function performs no database writes, which the type makes explicit by
not returning a `Db`.  The joined `compartmentId` is nonnull for any
row the query returns, so `getD` never supplies its default on a hit. -/
def validateAndUnlock (reg : List RegColumn) (now : Nat) (net : Option Bool)
    (db : Db) (pickupCode : String) : ValidateResult :=
  match db.lookupPickup pickupCode with
  | none => ValidateResult.err "Invalid or expired pickup code"
  | some o =>
      let cid := o.compartmentId.getD ""
      let r := unlockLocker reg now net cid
      if r.1 then ValidateResult.ok cid (displayOrderNumber o)
      else ValidateResult.err ((r.2).getD "Failed to unlock")

/-- JS regex `\s` on the characters a pickup code can contain: space,
tab, LF, VT, FF, CR, NBSP. -/
def isJsSpace (c : Char) : Bool :=
  c == ' ' || c == '\t' || c == '\n' || c == '\r' ||
    c.toNat == 11 || c.toNat == 12 || c.toNat == 160

/-- `body.code.toString().toUpperCase().replace(/\s/g, '')` from the
pickup route. -/
def normalizeCode (s : String) : String :=
  String.mk ((s.data.map Char.toUpper).filter (fun c => !(isJsSpace c)))

/-- `POST /api/lockers/pickup`: missing-code guard (empty string is
falsy), normalization, then `validateAndUnlock`. -/
def pickupRoute (reg : List RegColumn) (now : Nat) (net : Option Bool)
    (db : Db) (rawCode : String) : ValidateResult :=
  if rawCode == "" then ValidateResult.err "Missing pickup code"
  else validateAndUnlock reg now net db (normalizeCode rawCode)

/-! ## Helper lemmas -/

/-- `find?` commutes with a `map` whose function preserves the
predicate (used for SQL `UPDATE ... WHERE id` / registry sweeps, whose
update functions keep the key field). -/
theorem find_map_pres {α : Type} (p : α → Bool) (f : α → α) (l : List α)
    (hf : ∀ x, p (f x) = p x) :
    (l.map f).find? p = (l.find? p).map f := by
  induction l with
  | nil => rfl
  | cons x xs ih =>
      by_cases h : p x = true
      · simp [List.find?_cons, hf, h]
      · simp only [Bool.not_eq_true] at h
        simp [List.find?_cons, hf, h, ih]

/-- A `setOutput` on one bit leaves every other bit of the cached
output byte unchanged. -/
theorem setOutput_testBit_other (sr : ShiftRegister) (b : Nat) (st : Bool)
    (i : Nat) (hi : i < 8) (hb : b ≤ 7) (hne : i ≠ b) :
    ((sr.setOutput b st).outputState).testBit i = sr.outputState.testBit i := by
  have hb8 : ¬ b > 7 := by omega
  have key : ∀ x : Nat, (x % 256).testBit i = x.testBit i := fun x => by
    rw [show (256 : Nat) = 2 ^ 8 by norm_num, Nat.testBit_mod_two_pow]
    simp [hi]
  have h255 : (255 : Nat).testBit i = true := by
    rw [show (255 : Nat) = 2 ^ 8 - 1 by norm_num, Nat.testBit_two_pow_sub_one]
    simp [hi]
  have hpow : (2 ^ b).testBit i = false := Nat.testBit_two_pow_of_ne (Ne.symm hne)
  cases st <;>
    simp [ShiftRegister.setOutput, ShiftRegister.writeOutputs, hb8, key,
      Nat.shiftLeft_eq, Nat.testBit_or, Nat.testBit_and, Nat.testBit_xor,
      h255, hpow]

/-- A `setOutput` sets exactly the addressed bit of the cached output
byte. -/
theorem setOutput_testBit_self (sr : ShiftRegister) (b : Nat) (st : Bool)
    (hb : b ≤ 7) :
    ((sr.setOutput b st).outputState).testBit b = st := by
  have hb8 : ¬ b > 7 := by omega
  have hblt : b < 8 := by omega
  have key : ∀ x : Nat, (x % 256).testBit b = x.testBit b := fun x => by
    rw [show (256 : Nat) = 2 ^ 8 by norm_num, Nat.testBit_mod_two_pow]
    simp [hblt]
  have h255 : (255 : Nat).testBit b = true := by
    rw [show (255 : Nat) = 2 ^ 8 - 1 by norm_num, Nat.testBit_two_pow_sub_one]
    simp [hblt]
  have hpow : (2 ^ b).testBit b = true := by simp [Nat.testBit_two_pow_self]
  cases st <;>
    simp [ShiftRegister.setOutput, ShiftRegister.writeOutputs, hb8, key,
      Nat.shiftLeft_eq, Nat.testBit_or, Nat.testBit_and, Nat.testBit_xor,
      h255, hpow]

/-! ## Claims -/

/-- Claim C2: the shift register's cached and physically latched output
word immediately after any `readInputs()` equal the output word
immediately before it — the driver re-asserts the last written word, so
a read never corrupts output state, whatever the sampled input byte and
whatever disturbance the shared clock caused. -/
theorem readInputs_preserves_outputs (sr : ShiftRegister) (pins disturb : Nat)
    (h : sr.outputState < 256) :
    (sr.readInputs pins disturb).outputState = sr.outputState ∧
    (sr.readInputs pins disturb).chipOutput = sr.outputState := by
  simp [ShiftRegister.readInputs, ShiftRegister.writeOutputs, Nat.mod_eq_of_lt h]

theorem readInputs_preserves_outputs_witness :
    ((5 : Nat) < 256) ∧
    ((ShiftRegister.mk 5 0 5).readInputs 3 250).outputState = 5 ∧
    ((ShiftRegister.mk 5 0 5).readInputs 3 250).chipOutput = 5 :=
  ⟨by decide, readInputs_preserves_outputs (ShiftRegister.mk 5 0 5) 3 250 (by decide)⟩

/-- Claim C1: whatever the prior state, if the motor-fault input bit is
asserted while the state is not Fault, the next `update()` zeroes all
eight output bits (emergency stop) and forces the Fault state, before
any per-state transition rule runs. -/
theorem update_motorFault_forces_fault (lc : LockerControl)
    (now pins disturb : Nat) (hpins : pins < 256)
    (hmf : pins.testBit IN_TMC_DIAG = true)
    (hst : lc.state ≠ LockerState.FAULT) :
    (lc.update now pins disturb).state = LockerState.FAULT ∧
    (lc.update now pins disturb).sr.outputState = 0 ∧
    (lc.update now pins disturb).sr.chipOutput = 0 ∧
    (lc.update now pins disturb).lastError = some "Motor fault" := by
  simp [LockerControl.update, LockerControl.getSensors, LockerControl.emergencyStop,
    ShiftRegister.readInputs, ShiftRegister.writeOutputs, Nat.mod_eq_of_lt hpins,
    hmf, hst]

theorem update_motorFault_forces_fault_witness :
    ((LockerControl.mk (ShiftRegister.mk 54 0 54) LockerState.CLOSING 0 0
        none).update 7 128 0).state = LockerState.FAULT ∧
    ((LockerControl.mk (ShiftRegister.mk 54 0 54) LockerState.CLOSING 0 0
        none).update 7 128 0).sr.outputState = 0 ∧
    ((LockerControl.mk (ShiftRegister.mk 54 0 54) LockerState.CLOSING 0 0
        none).update 7 128 0).sr.chipOutput = 0 ∧
    ((LockerControl.mk (ShiftRegister.mk 54 0 54) LockerState.CLOSING 0 0
        none).update 7 128 0).lastError = some "Motor fault" :=
  update_motorFault_forces_fault
    (LockerControl.mk (ShiftRegister.mk 54 0 54) LockerState.CLOSING 0 0 none)
    7 128 0 (by decide) (by decide) (by decide)

/-- Claim C3: `unlock()` returns the Busy error exactly when the
current state is Unlocking, Closing, or Sanitizing, and whenever
`unlock()` fails — for any reason and either compiled value of
TEST_MODE — the state is unchanged. -/
theorem unlock_busy_iff_and_fail_no_transition (testMode : Bool) (now : Nat)
    (lc : LockerControl) :
    (((lc.unlock testMode now).1 = false ∧
        (lc.unlock testMode now).2.lastError = some "Busy") ↔
      (lc.state = LockerState.UNLOCKING ∨ lc.state = LockerState.CLOSING ∨
        lc.state = LockerState.SANITIZING)) ∧
    ((lc.unlock testMode now).1 = false →
      (lc.unlock testMode now).2.state = lc.state) := by
  have hbusy : lc.isBusy = true ↔
      (lc.state = LockerState.UNLOCKING ∨ lc.state = LockerState.CLOSING ∨
        lc.state = LockerState.SANITIZING) := by
    simp [LockerControl.isBusy]
  by_cases hb : lc.isBusy = true
  · simp [LockerControl.unlock, hb, hbusy.mp hb]
  · rw [Bool.not_eq_true] at hb
    have hnb : ¬(lc.state = LockerState.UNLOCKING ∨
        lc.state = LockerState.CLOSING ∨ lc.state = LockerState.SANITIZING) := by
      rw [← hbusy, hb]; simp
    cases testMode
    · by_cases hs : lc.getSensors.safetyOk = true
      · by_cases hm : lc.getSensors.motorFault = true
        · simp [LockerControl.unlock, LockerControl.checkSafety, hb, hs, hm, hnb]
        · rw [Bool.not_eq_true] at hm
          simp [LockerControl.unlock, LockerControl.checkSafety, hb, hs, hm, hnb]
      · rw [Bool.not_eq_true] at hs
        simp [LockerControl.unlock, LockerControl.checkSafety, hb, hs, hnb]
    · simp [LockerControl.unlock, LockerControl.checkSafety, hb, hnb]

theorem unlock_busy_iff_witness :
    ((((LockerControl.mk (ShiftRegister.mk 0 0 0) LockerState.SANITIZING 0 0
          none).unlock true 5).1 = false ∧
        ((LockerControl.mk (ShiftRegister.mk 0 0 0) LockerState.SANITIZING 0 0
          none).unlock true 5).2.lastError = some "Busy") ↔
      ((LockerControl.mk (ShiftRegister.mk 0 0 0) LockerState.SANITIZING 0 0
          none).state = LockerState.UNLOCKING ∨
        (LockerControl.mk (ShiftRegister.mk 0 0 0) LockerState.SANITIZING 0 0
          none).state = LockerState.CLOSING ∨
        (LockerControl.mk (ShiftRegister.mk 0 0 0) LockerState.SANITIZING 0 0
          none).state = LockerState.SANITIZING)) ∧
    (((LockerControl.mk (ShiftRegister.mk 0 0 0) LockerState.SANITIZING 0 0
          none).unlock true 5).1 = false →
      ((LockerControl.mk (ShiftRegister.mk 0 0 0) LockerState.SANITIZING 0 0
          none).unlock true 5).2.state =
        (LockerControl.mk (ShiftRegister.mk 0 0 0) LockerState.SANITIZING 0 0
          none).state) :=
  unlock_busy_iff_and_fail_no_transition true 5
    (LockerControl.mk (ShiftRegister.mk 0 0 0) LockerState.SANITIZING 0 0 none)

/-- Claim C4 counterexample: with the compiled flag value
(`#define TEST_MODE true`), an idle compartment whose input byte has
the safety bit deasserted and the motor-fault bit asserted is NOT
rejected — `checkSafety` accepts and `unlock()` actuates and
transitions to Unlocking, so the safety-interlock check does not
reject, and it is disabled by a compiled-out path. -/
theorem checkSafety_bypassed_counterexample :
    ((LockerControl.mk (ShiftRegister.mk 0 128 0) LockerState.IDLE 0 0
        none).getSensors.safetyOk = false) ∧
    ((LockerControl.mk (ShiftRegister.mk 0 128 0) LockerState.IDLE 0 0
        none).getSensors.motorFault = true) ∧
    (((LockerControl.mk (ShiftRegister.mk 0 128 0) LockerState.IDLE 0 0
        none).checkSafety TEST_MODE).1 = true) ∧
    (((LockerControl.mk (ShiftRegister.mk 0 128 0) LockerState.IDLE 0 0
        none).unlock TEST_MODE 0).1 = true) ∧
    (((LockerControl.mk (ShiftRegister.mk 0 128 0) LockerState.IDLE 0 0
        none).unlock TEST_MODE 0).2.state = LockerState.UNLOCKING) := by
  decide

/-- Claim C4 amended: the safety gate consulted by `unlock()`/`lock()`
rejects exactly when the safety sensor is deasserted or a motor fault
is present ONLY when the compile-time flag TEST_MODE is false; a
rejected call fails without transitioning; with TEST_MODE true — the
value compiled into the source — the sensor checks are compiled out and
the gate always accepts. -/
theorem checkSafety_gate_spec (lc : LockerControl) (now : Nat) :
    ((lc.checkSafety false).1 =
      (lc.getSensors.safetyOk && !lc.getSensors.motorFault)) ∧
    ((lc.checkSafety false).2.state = lc.state) ∧
    ((lc.checkSafety true).1 = true ∧ (lc.checkSafety true).2 = lc) ∧
    ((lc.checkSafety false).1 = false →
      (lc.unlock false now).1 = false ∧
        (lc.unlock false now).2.state = lc.state) ∧
    ((lc.checkSafety false).1 = false →
      (lc.lock false now).1 = false ∧
        (lc.lock false now).2.state = lc.state) := by
  by_cases hs : lc.getSensors.safetyOk = true
  · by_cases hm : lc.getSensors.motorFault = true
    · by_cases hb : lc.isBusy = true <;>
        by_cases hir : lc.getSensors.irBeamClear = true <;>
          simp [LockerControl.checkSafety, LockerControl.unlock,
            LockerControl.lock, hs, hm, hb, hir]
    · rw [Bool.not_eq_true] at hm
      simp [LockerControl.checkSafety, hs, hm]
  · rw [Bool.not_eq_true] at hs
    by_cases hb : lc.isBusy = true <;>
      by_cases hir : lc.getSensors.irBeamClear = true <;>
        simp [LockerControl.checkSafety, LockerControl.unlock,
          LockerControl.lock, hs, hb, hir]

theorem checkSafety_gate_spec_witness :
    (((LockerControl.mk (ShiftRegister.mk 0 128 0) LockerState.IDLE 0 0
        none).checkSafety false).1 = false) ∧
    (((LockerControl.mk (ShiftRegister.mk 0 128 0) LockerState.IDLE 0 0
        none).unlock false 3).1 = false ∧
      ((LockerControl.mk (ShiftRegister.mk 0 128 0) LockerState.IDLE 0 0
        none).unlock false 3).2.state = LockerState.IDLE) :=
  ⟨by decide,
    (checkSafety_gate_spec
      (LockerControl.mk (ShiftRegister.mk 0 128 0) LockerState.IDLE 0 0 none)
      3).2.2.2.1 (by decide)⟩

/-- Claim C5: in Closing, an `update()` that samples the IR beam
blocked (and no motor fault) moves to Unlocking with the motor
direction reversed and the operation start time reset, records the
"Obstruction" error, keeps the LED output on, does not enter Fault, and
a subsequent `update()` sampling the door-open sensor asserted moves to
Open. -/
theorem closing_obstruction_reopens (lc : LockerControl)
    (now pins disturb now2 pins2 disturb2 : Nat)
    (hst : lc.state = LockerState.CLOSING)
    (hpins : pins < 256)
    (hir : pins.testBit IN_IR_BEAM = false)
    (hmf : pins.testBit IN_TMC_DIAG = false)
    (hled : lc.sr.outputState.testBit OUT_LED = true)
    (hout : lc.sr.outputState < 256)
    (hpins2 : pins2 < 256)
    (hdo : pins2.testBit IN_HALL_OPEN = false)
    (hmf2 : pins2.testBit IN_TMC_DIAG = false) :
    (lc.update now pins disturb).state = LockerState.UNLOCKING ∧
    (lc.update now pins disturb).lastError = some "Obstruction" ∧
    (lc.update now pins disturb).opStart = now % U32 ∧
    (lc.update now pins disturb).sr.outputState.testBit OUT_LED = true ∧
    (lc.update now pins disturb).sr.outputState.testBit OUT_DIR = true ∧
    ((lc.update now pins disturb).update now2 pins2 disturb2).state =
      LockerState.OPEN := by
  have hread : (lc.sr.readInputs pins disturb).outputState = lc.sr.outputState := by
    simp [ShiftRegister.readInputs, ShiftRegister.writeOutputs,
      Nat.mod_eq_of_lt hout]
  have key : lc.update now pins disturb =
      { lc with sr := (lc.sr.readInputs pins disturb).setOutput OUT_DIR true,
                lastError := some "Obstruction",
                state := LockerState.UNLOCKING,
                opStart := now % U32 } := by
    simp [LockerControl.update, LockerControl.getSensors,
      ShiftRegister.readInputs, ShiftRegister.writeOutputs,
      Nat.mod_eq_of_lt hpins, hmf, hst, hir]
  refine ⟨by rw [key], by rw [key], by rw [key], ?_, ?_, ?_⟩
  · rw [key]
    show ((lc.sr.readInputs pins disturb).setOutput OUT_DIR
      true).outputState.testBit OUT_LED = true
    rw [setOutput_testBit_other _ _ _ _ (by norm_num [OUT_LED])
      (by norm_num [OUT_DIR]) (by norm_num [OUT_LED, OUT_DIR]), hread, hled]
  · rw [key]
    exact setOutput_testBit_self _ OUT_DIR true (by norm_num [OUT_DIR])
  · rw [key]
    simp [LockerControl.update, LockerControl.getSensors,
      ShiftRegister.readInputs, ShiftRegister.writeOutputs,
      Nat.mod_eq_of_lt hpins2, hdo, hmf2]

theorem closing_obstruction_reopens_witness :
    (((LockerControl.mk (ShiftRegister.mk 2 0 2) LockerState.CLOSING 0 0
        none).update 5 0 0).state = LockerState.UNLOCKING ∧
      ((LockerControl.mk (ShiftRegister.mk 2 0 2) LockerState.CLOSING 0 0
        none).update 5 0 0).lastError = some "Obstruction" ∧
      ((LockerControl.mk (ShiftRegister.mk 2 0 2) LockerState.CLOSING 0 0
        none).update 5 0 0).opStart = 5 % U32 ∧
      ((LockerControl.mk (ShiftRegister.mk 2 0 2) LockerState.CLOSING 0 0
        none).update 5 0 0).sr.outputState.testBit OUT_LED = true ∧
      ((LockerControl.mk (ShiftRegister.mk 2 0 2) LockerState.CLOSING 0 0
        none).update 5 0 0).sr.outputState.testBit OUT_DIR = true ∧
      (((LockerControl.mk (ShiftRegister.mk 2 0 2) LockerState.CLOSING 0 0
        none).update 5 0 0).update 6 0 0).state = LockerState.OPEN) :=
  closing_obstruction_reopens
    (LockerControl.mk (ShiftRegister.mk 2 0 2) LockerState.CLOSING 0 0 none)
    5 0 0 6 0 0 (by decide) (by decide) (by decide) (by decide) (by decide)
    (by decide) (by decide) (by decide) (by decide)

/-- Claim C6: `startSanitize(ms)` fails with no state change unless the
door-closed sensor is asserted and the state is not busy; on success it
turns the UV output on, records the end time `now + ms` (uint32 wrap),
and moves to Sanitizing; once the recorded end time is reached, an
`update()` (with no motor fault) turns the UV output off and moves to
Locked. -/
theorem startSanitize_spec (lc : LockerControl)
    (now ms now2 pins2 disturb2 : Nat) :
    (¬(lc.getSensors.doorClosed = true ∧ lc.isBusy = false) →
      (lc.startSanitize now ms).1 = false ∧
      (lc.startSanitize now ms).2.state = lc.state ∧
      (lc.startSanitize now ms).2.sr = lc.sr ∧
      (lc.startSanitize now ms).2.sanitizeEnd = lc.sanitizeEnd ∧
      (lc.startSanitize now ms).2.opStart = lc.opStart) ∧
    (lc.getSensors.doorClosed = true → lc.isBusy = false →
      (lc.startSanitize now ms).1 = true ∧
      (lc.startSanitize now ms).2.state = LockerState.SANITIZING ∧
      (lc.startSanitize now ms).2.sanitizeEnd = (now + ms) % U32 ∧
      (lc.startSanitize now ms).2.sr.outputState.testBit OUT_UVC = true) ∧
    (lc.getSensors.doorClosed = true → lc.isBusy = false →
      pins2 < 256 → pins2.testBit IN_TMC_DIAG = false →
      now2 ≥ (now + ms) % U32 →
      ((lc.startSanitize now ms).2.update now2 pins2 disturb2).state =
        LockerState.LOCKED ∧
      ((lc.startSanitize now ms).2.update now2 pins2
        disturb2).sr.outputState.testBit OUT_UVC = false) := by
  refine ⟨?_, ?_, ?_⟩
  · intro h
    by_cases hd : lc.getSensors.doorClosed = true
    · have hb : lc.isBusy = true := by
        by_contra hb
        rw [Bool.not_eq_true] at hb
        exact h ⟨hd, hb⟩
      simp [LockerControl.startSanitize, hd, hb]
    · rw [Bool.not_eq_true] at hd
      simp [LockerControl.startSanitize, hd]
  · intro hd hb
    have key : lc.startSanitize now ms =
        (true, { lc with sr := lc.sr.setOutput OUT_UVC true,
                         sanitizeEnd := (now + ms) % U32,
                         state := LockerState.SANITIZING }) := by
      simp [LockerControl.startSanitize, hd, hb]
    refine ⟨by rw [key], by rw [key], by rw [key], ?_⟩
    rw [key]
    exact setOutput_testBit_self _ OUT_UVC true (by norm_num [OUT_UVC])
  · intro hd hb hp hm hn
    have key : lc.startSanitize now ms =
        (true, { lc with sr := lc.sr.setOutput OUT_UVC true,
                         sanitizeEnd := (now + ms) % U32,
                         state := LockerState.SANITIZING }) := by
      simp [LockerControl.startSanitize, hd, hb]
    rw [key]
    have key2 : ({ lc with sr := lc.sr.setOutput OUT_UVC true,
                           sanitizeEnd := (now + ms) % U32,
                           state := LockerState.SANITIZING } :
          LockerControl).update now2 pins2 disturb2 =
        { lc with
            sr := (((lc.sr.setOutput OUT_UVC true).readInputs pins2
              disturb2).setOutput OUT_UVC false),
            sanitizeEnd := (now + ms) % U32,
            state := LockerState.LOCKED } := by
      simp [LockerControl.update, LockerControl.getSensors,
        ShiftRegister.readInputs, ShiftRegister.writeOutputs,
        Nat.mod_eq_of_lt hp, hm, hn]
    rw [key2]
    exact ⟨rfl, setOutput_testBit_self _ OUT_UVC false (by norm_num [OUT_UVC])⟩

theorem startSanitize_spec_witness :
    (((LockerControl.mk (ShiftRegister.mk 0 0 0) LockerState.LOCKED 0 0
        none).startSanitize 100 5000).1 = true ∧
      ((LockerControl.mk (ShiftRegister.mk 0 0 0) LockerState.LOCKED 0 0
        none).startSanitize 100 5000).2.state = LockerState.SANITIZING ∧
      ((LockerControl.mk (ShiftRegister.mk 0 0 0) LockerState.LOCKED 0 0
        none).startSanitize 100 5000).2.sanitizeEnd = (100 + 5000) % U32 ∧
      ((LockerControl.mk (ShiftRegister.mk 0 0 0) LockerState.LOCKED 0 0
        none).startSanitize 100
        5000).2.sr.outputState.testBit OUT_UVC = true) ∧
    ((((LockerControl.mk (ShiftRegister.mk 0 0 0) LockerState.LOCKED 0 0
        none).startSanitize 100 5000).2.update 5100 0 0).state =
      LockerState.LOCKED ∧
      (((LockerControl.mk (ShiftRegister.mk 0 0 0) LockerState.LOCKED 0 0
        none).startSanitize 100 5000).2.update 5100 0
        0).sr.outputState.testBit OUT_UVC = false) := by
  have h := startSanitize_spec
    (LockerControl.mk (ShiftRegister.mk 0 0 0) LockerState.LOCKED 0 0 none)
    100 5000 5100 0 0
  exact ⟨h.2.1 (by decide) (by decide),
    h.2.2 (by decide) (by decide) (by decide) (by decide) (by decide)⟩

/-- Claim C7: a column whose last-seen timestamp is more than the
60-second staleness threshold old is reported offline by the registry,
a command relay to it yields the offline outcome (returned before the
network branch is reached), and the health sweep at most flips its
online flag — the column record, with its cached sensor snapshot list,
survives. -/
theorem stale_column_offline (reg : List RegColumn) (now : Nat)
    (cid : String) (col : RegColumn)
    (hget : registryGet reg cid = some col)
    (hstale : now - col.lastSeen > 60000) :
    isColumnOnline reg now cid = false ∧
    (∀ net, sendToColumn reg now net cid = SendOutcome.offline) ∧
    registryGet (checkColumnHealth reg now) cid =
      some { col with isOnline := false } := by
  have hon : isColumnOnline reg now cid = false := by
    simp [isColumnOnline, hget]
    omega
  refine ⟨hon, fun net => by simp [sendToColumn, hget, hon], ?_⟩
  have hf : ∀ x : RegColumn,
      ((if now - x.lastSeen > 60000 && x.isOnline then
          { x with isOnline := false } else x).id == cid) = (x.id == cid) := by
    intro x
    split <;> rfl
  unfold checkColumnHealth registryGet
  rw [find_map_pres _ _ _ hf]
  unfold registryGet at hget
  rw [hget]
  by_cases ho : col.isOnline = true
  · simp [hstale, ho]
  · rw [Bool.not_eq_true] at ho
    cases col
    simp_all

theorem stale_column_offline_witness :
    isColumnOnline [RegColumn.mk "COL-001" "192.168.150.10" 80 3 "1.0.1" 1000
        true []] 70000 "COL-001" = false ∧
    (∀ net, sendToColumn [RegColumn.mk "COL-001" "192.168.150.10" 80 3 "1.0.1"
        1000 true []] 70000 net "COL-001" = SendOutcome.offline) ∧
    registryGet (checkColumnHealth [RegColumn.mk "COL-001" "192.168.150.10" 80
        3 "1.0.1" 1000 true []] 70000) "COL-001" =
      some (RegColumn.mk "COL-001" "192.168.150.10" 80 3 "1.0.1" 1000
        false []) :=
  stale_column_offline
    [RegColumn.mk "COL-001" "192.168.150.10" 80 3 "1.0.1" 1000 true []]
    70000 "COL-001"
    (RegColumn.mk "COL-001" "192.168.150.10" 80 3 "1.0.1" 1000 true [])
    (by decide) (by decide)

/-- Claim C9: assigning an order to a compartment whose status is not
`available` fails with an error naming the current status and returns
the database entirely unchanged — compartment status, order binding,
and pickup code included. -/
theorem assign_unavailable_no_mutation (db : Db)
    (orderId cid code now : String) (c : CompartmentRec)
    (hfind : db.findCompartment cid = some c)
    (hst : c.status ≠ "available") :
    assignOrderToLocker db orderId cid code now =
      (AssignResult.err ("Compartment is " ++ c.status), db) := by
  have hb : (c.status == "available") = false := beq_eq_false_iff_ne.mpr hst
  simp [assignOrderToLocker, hfind, hb]

theorem assign_unavailable_no_mutation_witness :
    assignOrderToLocker
      (Db.mk [OrderRec.mk "O9" "A009" (some "C1-0") (some "XYZ234") none
        "locker"]
        [CompartmentRec.mk "C1-0" "C1" 0 "M" "occupied" (some "O9") "t0"] [])
      "O2" "C1-0" "QQ2345" "t1" =
      (AssignResult.err ("Compartment is " ++ "occupied"),
        Db.mk [OrderRec.mk "O9" "A009" (some "C1-0") (some "XYZ234") none
          "locker"]
          [CompartmentRec.mk "C1-0" "C1" 0 "M" "occupied" (some "O9") "t0"]
          []) :=
  assign_unavailable_no_mutation
    (Db.mk [OrderRec.mk "O9" "A009" (some "C1-0") (some "XYZ234") none
      "locker"]
      [CompartmentRec.mk "C1-0" "C1" 0 "M" "occupied" (some "O9") "t0"] [])
    "O2" "C1-0" "QQ2345" "t1"
    (CompartmentRec.mk "C1-0" "C1" 0 "M" "occupied" (some "O9") "t0")
    (by decide) (by decide)

/-- Claim C10: on a DOOR_CLOSED event the compartment's status becomes
`occupied` exactly when a currentOrderId is bound and `available`
otherwise, regardless of the prior status — in particular a `reserved`
compartment with a bound order becomes `occupied` without
markOrderLoaded ever running. -/
theorem door_closed_occupied_iff_bound (db : Db) (columnId : String)
    (lockerIndex : Nat) (now ts eid payload : String) (c : CompartmentRec)
    (hfind : db.findCompartment (columnId ++ "-" ++ toString lockerIndex) =
      some c) :
    (handleLockerEvent db columnId lockerIndex "DOOR_CLOSED" now ts eid
        payload).findCompartment (columnId ++ "-" ++ toString lockerIndex) =
      some { c with
               status := if c.currentOrderId.isSome then "occupied"
                         else "available",
               lastStatusChange := now } := by
  have hfind2 : db.compartments.find?
      (fun x => x.id == columnId ++ "-" ++ toString lockerIndex) = some c :=
    hfind
  have hp := List.find?_some hfind2
  have hf : ∀ (s0 : String) (x : CompartmentRec),
      ((if x.id == columnId ++ "-" ++ toString lockerIndex then
          { x with status := s0, lastStatusChange := now }
        else x).id == columnId ++ "-" ++ toString lockerIndex) =
        (x.id == columnId ++ "-" ++ toString lockerIndex) := by
    intro s0 x
    split <;> rfl
  simp only [handleLockerEvent, Db.findCompartment, Db.updateCompartment]
  simp only [show (("DOOR_CLOSED" : String) == "DOOR_OPENED") = false from
      by decide,
    show (("DOOR_CLOSED" : String) == "DOOR_CLOSED") = true from by decide,
    Bool.false_eq_true, if_false, if_true]
  rw [find_map_pres _ _ _ (hf _)]
  simp only [hfind2]
  have hceq : c.id = columnId ++ "-" ++ toString lockerIndex := by
    simpa using hp
  simp [hceq]

theorem door_closed_occupied_iff_bound_witness :
    (handleLockerEvent
        (Db.mk [OrderRec.mk "O1" "A042" (some "C1-0") (some "ABC123") none
          "locker"]
          [CompartmentRec.mk "C1-0" "C1" 0 "M" "reserved" (some "O1") "t0"] [])
        "C1" 0 "DOOR_CLOSED" "t1" "t1" "E1" "{}").findCompartment
      ("C1" ++ "-" ++ toString (0 : Nat)) =
      some (CompartmentRec.mk "C1-0" "C1" 0 "M" "occupied" (some "O1") "t1") :=
  door_closed_occupied_iff_bound
    (Db.mk [OrderRec.mk "O1" "A042" (some "C1-0") (some "ABC123") none
      "locker"]
      [CompartmentRec.mk "C1-0" "C1" 0 "M" "reserved" (some "O1") "t0"] [])
    "C1" 0 "t1" "t1" "E1" "{}"
    (CompartmentRec.mk "C1-0" "C1" 0 "M" "reserved" (some "O1") "t0")
    (by decide)

/-- Claim C8 counterexample: code "ABC123" bound to order O1 on
occupied compartment C1-0, column C1 online and relay succeeding.
`validateAndUnlock("abc 123")` succeeds — and a second call with
another casing of the same code succeeds again instead of failing with
the invalid-or-expired-code error, because `validateAndUnlock` mutates
nothing: the code is only invalidated by the later ITEM_REMOVED
hardware event. -/
theorem validate_twice_counterexample :
    pickupRoute [RegColumn.mk "C1" "10.0.0.5" 80 1 "1.0.1" 1000 true []] 1000
        (some true)
        (Db.mk [OrderRec.mk "O1" "A042" (some "C1-0") (some "ABC123") none
          "locker"]
          [CompartmentRec.mk "C1-0" "C1" 0 "M" "occupied" (some "O1") "t0"] [])
        "abc 123" = ValidateResult.ok "C1-0" "A042" ∧
    pickupRoute [RegColumn.mk "C1" "10.0.0.5" 80 1 "1.0.1" 1000 true []] 1000
        (some true)
        (Db.mk [OrderRec.mk "O1" "A042" (some "C1-0") (some "ABC123") none
          "locker"]
          [CompartmentRec.mk "C1-0" "C1" 0 "M" "occupied" (some "O1") "t0"] [])
        "aBc123" = ValidateResult.ok "C1-0" "A042" ∧
    pickupRoute [RegColumn.mk "C1" "10.0.0.5" 80 1 "1.0.1" 1000 true []] 1000
        (some true)
        (Db.mk [OrderRec.mk "O1" "A042" (some "C1-0") (some "ABC123") none
          "locker"]
          [CompartmentRec.mk "C1-0" "C1" 0 "M" "occupied" (some "O1") "t0"] [])
        "aBc123" ≠ ValidateResult.err "Invalid or expired pickup code" := by
  decide

/-- Claim C8 amended: pickup-code validation normalizes the submitted
code to uppercase with whitespace stripped before lookup, and a code
validates at most once per delivery: `validateAndUnlock` itself mutates
nothing, so the second failure requires the ITEM_REMOVED hardware event
(which marks the order picked up and frees the compartment) to be
processed after the successful call; once it is, any call with any
casing/whitespace variant of the code fails with the
invalid-or-expired-code error (assuming the code is held by no other
outstanding order). -/
theorem validate_once_after_item_removed
    (reg : List RegColumn) (now now2 : Nat) (net net2 : Option Bool)
    (db : Db) (code raw1 raw2 cid columnId : String) (o : OrderRec)
    (c : CompartmentRec) (lockerIndex : Nat) (nowIso ts eid payload : String)
    (hraw1 : raw1 ≠ "") (hnorm1 : normalizeCode raw1 = code)
    (hraw2 : raw2 ≠ "") (hnorm2 : normalizeCode raw2 = code)
    (hlook : db.lookupPickup code = some o)
    (hcid : o.compartmentId = some cid)
    (hrelay : (unlockLocker reg now net cid).1 = true)
    (hcidfmt : columnId ++ "-" ++ toString lockerIndex = cid)
    (hc : db.findCompartment cid = some c)
    (hcOrder : c.currentOrderId = some o.id)
    (huniq : ∀ o2 ∈ db.orders, o2.pickupCode = some code → o2.id = o.id) :
    pickupRoute reg now net db raw1 =
      ValidateResult.ok cid (displayOrderNumber o) ∧
    pickupRoute reg now2 net2
      (handleLockerEvent db columnId lockerIndex "ITEM_REMOVED" nowIso ts eid
        payload) raw2 =
      ValidateResult.err "Invalid or expired pickup code" := by
  constructor
  · simp [pickupRoute, validateAndUnlock, beq_eq_false_iff_ne.mpr hraw1,
      hnorm1, hlook, hcid, hrelay]
  · have hfind2 : db.compartments.find? (fun x => x.id == cid) = some c := hc
    have horders :
        (handleLockerEvent db columnId lockerIndex "ITEM_REMOVED" nowIso ts
          eid payload).orders =
        db.orders.map (fun o3 =>
          if o3.id == o.id then { o3 with pickedUpAt := some nowIso }
          else o3) := by
      simp [handleLockerEvent, Db.findCompartment, Db.updateOrder,
        Db.updateCompartment, hcidfmt, hfind2, hcOrder]
    have hlookNone :
        (handleLockerEvent db columnId lockerIndex "ITEM_REMOVED" nowIso ts
          eid payload).lookupPickup code = none := by
      unfold Db.lookupPickup
      rw [horders]
      rw [List.find?_eq_none]
      intro x hx
      obtain ⟨o2, ho2, rfl⟩ := List.mem_map.mp hx
      by_cases hpc : (o2.pickupCode == some code) = true
      · have hid : o2.id = o.id := huniq o2 ho2 (by simpa using hpc)
        simp [hid]
      · rw [Bool.not_eq_true] at hpc
        have hpres : ((if o2.id == o.id then
            { o2 with pickedUpAt := some nowIso } else o2).pickupCode ==
              some code) = false := by
          split <;> simpa using hpc
        simp only [hpres, Bool.false_and]
        exact Bool.false_ne_true
    simp [pickupRoute, validateAndUnlock, beq_eq_false_iff_ne.mpr hraw2,
      hnorm2, hlookNone]

theorem validate_once_after_item_removed_witness :
    pickupRoute [RegColumn.mk "C2" "10.0.0.6" 80 1 "1.0.1" 2000 true []] 2000
        (some true)
        (Db.mk [OrderRec.mk "O2" "B077" (some "C2-0") (some "QQ7788") none
          "locker"]
          [CompartmentRec.mk "C2-0" "C2" 0 "M" "occupied" (some "O2") "t0"] [])
        "qq 7788" = ValidateResult.ok "C2-0"
          (displayOrderNumber (OrderRec.mk "O2" "B077" (some "C2-0")
            (some "QQ7788") none "locker")) ∧
    pickupRoute [RegColumn.mk "C2" "10.0.0.6" 80 1 "1.0.1" 2000 true []] 2001
        (some true)
        (handleLockerEvent
          (Db.mk [OrderRec.mk "O2" "B077" (some "C2-0") (some "QQ7788") none
            "locker"]
            [CompartmentRec.mk "C2-0" "C2" 0 "M" "occupied" (some "O2") "t0"]
            [])
          "C2" 0 "ITEM_REMOVED" "t1" "t1" "E9" "{}") "Qq7788" =
      ValidateResult.err "Invalid or expired pickup code" :=
  validate_once_after_item_removed
    [RegColumn.mk "C2" "10.0.0.6" 80 1 "1.0.1" 2000 true []] 2000 2001
    (some true) (some true)
    (Db.mk [OrderRec.mk "O2" "B077" (some "C2-0") (some "QQ7788") none
      "locker"]
      [CompartmentRec.mk "C2-0" "C2" 0 "M" "occupied" (some "O2") "t0"] [])
    "QQ7788" "qq 7788" "Qq7788" "C2-0" "C2"
    (OrderRec.mk "O2" "B077" (some "C2-0") (some "QQ7788") none "locker")
    (CompartmentRec.mk "C2-0" "C2" 0 "M" "occupied" (some "O2") "t0")
    0 "t1" "t1" "E9" "{}"
    (by decide) (by decide) (by decide) (by decide) (by decide) (by decide)
    (by decide) (by decide) (by decide) (by decide) (by decide)

end Locker
